import Mathlib

/-!
Shallow embedding of the Flask user-CRUD service in `src/web/app.py`:
a PostgreSQL-backed user table (id SERIAL PRIMARY KEY, username UNIQUE
NOT NULL, email UNIQUE NOT NULL) fronted by a Redis cache holding the
key `all_users` with a 30-second expiry.

The store is modelled as the list of user rows plus the next serial id.
The Redis client is modelled in three states, matching how the handlers
can experience it:
* `noClient`: the initial `redis_client.ping()` failed so `redis_client`
  is `None`; every `if redis_client:` guard in the handlers skips the
  cache code.
* `up entry`: the client works; `entry` is the current value of the
  `all_users` key (with its absolute expiry time), or `none` if unset.
* `down`: the client object exists but every call on it raises
  (the server became unreachable after startup).

Database availability (`get_db_connection` returning a connection or
`None`) is the boolean `dbUp`. Handler results carry the data the HTTP
response would, and each handler outcome also records whether a SQL
statement was issued against the store.
-/

structure User where
  id : Nat
  username : String
  email : String
deriving DecidableEq, Repr

structure Store where
  users : List User
  nextId : Nat
deriving DecidableEq, Repr

structure CacheEntry where
  value : List User
  expiry : Nat
deriving DecidableEq, Repr

inductive CacheClient where
  | noClient
  | up (entry : Option CacheEntry)
  | down
deriving DecidableEq, Repr

/-- Truthiness of an optional request field, as Python evaluates
`not data.get(k)`: absent (`None`) and the empty string are falsy. -/
def truthy : Option String → Bool
  | none => false
  | some s => !(s == "")

/-- Whether some row already uses this username (the UNIQUE constraint). -/
def usernameTaken (s : Store) (n : String) : Bool :=
  s.users.any (fun u => u.username == n)

/-- Whether some row already uses this email (the UNIQUE constraint). -/
def emailTaken (s : Store) (e : String) : Bool :=
  s.users.any (fun u => u.email == e)

inductive InsertResult where
  | ok (s : Store) (id : Nat)
  | integrity
deriving DecidableEq, Repr

/-- `INSERT INTO users (username, email) VALUES (%s, %s) RETURNING id;`
Fails with IntegrityError when either UNIQUE constraint is violated,
otherwise appends a row with the next serial id. -/
def Store.insertUser (s : Store) (username email : String) : InsertResult :=
  if usernameTaken s username || emailTaken s email then .integrity
  else .ok ⟨s.users ++ [⟨s.nextId, username, email⟩], s.nextId + 1⟩ s.nextId

inductive UpdateResult where
  | notFound
  | integrity
  | ok (s : Store)
deriving DecidableEq, Repr

/-- `UPDATE users SET username = %s, email = %s WHERE id = %s;` with the
raw request values, which may be NULL. If no row matches the id the
statement affects zero rows (`rowcount == 0`). If a row matches, writing
a NULL into either NOT NULL column raises IntegrityError, as does a
collision with another row under either UNIQUE constraint; otherwise
both columns of the matching row are overwritten. -/
def Store.updateUser (s : Store) (uid : Nat) (username email : Option String) :
    UpdateResult :=
  if !(s.users.any (fun u => u.id == uid)) then .notFound
  else if username.isNone || email.isNone then .integrity
  else if s.users.any (fun u =>
      u.id != uid && (u.username == username.getD "" || u.email == email.getD "")) then
    .integrity
  else .ok ⟨s.users.map (fun u =>
      if u.id == uid then ⟨u.id, username.getD "", email.getD ""⟩ else u), s.nextId⟩

/-- Response of a handler, carrying what the JSON body carries. -/
inductive HResult where
  | created (id : Nat) (username email : String)
  | okUsers (users : List User)
  | okUser (u : User)
  | okUpdated (id : Nat)
  | okDeleted (id : Nat)
  | badRequest (msg : String)
  | notFound
  | conflict
  | dbUnavailable
  | serverError
deriving DecidableEq, Repr

/-- The HTTP status code each response is returned with. -/
def HResult.status : HResult → Nat
  | .created _ _ _ => 201
  | .okUsers _ => 200
  | .okUser _ => 200
  | .okUpdated _ => 200
  | .okDeleted _ => 200
  | .badRequest _ => 400
  | .notFound => 404
  | .conflict => 409
  | .dbUnavailable => 503
  | .serverError => 500

/-- Outcome of a mutating handler: response, resulting store and cache
states, and whether any SQL was issued. -/
structure MutOutcome where
  response : HResult
  store' : Store
  cache' : CacheClient
  storeQueried : Bool
deriving DecidableEq, Repr

/-- Outcome of the list handler. -/
structure ListOutcome where
  response : HResult
  cache' : CacheClient
  storeQueried : Bool
deriving DecidableEq, Repr

/-- The post-commit cache invalidation block shared by the update and
delete handlers: `if redis_client: redis_client.delete('all_users')`.
With no client the block is skipped; with a working client the key is
deleted; with a raising client the exception lands in the generic
`except` handler, whose `conn.rollback()` is a no-op after the commit,
and a 500 response is returned. -/
def invalidateAndRespond (ok : HResult) (s' : Store) (c : CacheClient) : MutOutcome :=
  match c with
  | .noClient => ⟨ok, s', .noClient, true⟩
  | .up _ => ⟨ok, s', .up none, true⟩
  | .down => ⟨.serverError, s', .down, true⟩

/-- `create_user` (POST /users): validate both fields are truthy, get a
connection, insert; 201 with the new id on success, 409 after rollback
on IntegrityError. The cache is never touched. -/
def create_user (dbUp : Bool) (s : Store) (c : CacheClient)
    (username email : Option String) : MutOutcome :=
  if !truthy username || !truthy email then
    ⟨.badRequest "Missing username or email", s, c, false⟩
  else if !dbUp then ⟨.dbUnavailable, s, c, false⟩
  else
    match s.insertUser (username.getD "") (email.getD "") with
    | .ok s' uid => ⟨.created uid (username.getD "") (email.getD ""), s', c, true⟩
    | .integrity => ⟨.conflict, s, c, true⟩

/-- The cache-miss path of `list_users`: connect to the store, select
all rows, and — when a working client is present — set `all_users` with
a 30-second expiry (`ex=30`) before returning the rows. -/
def listFromStore (dbUp : Bool) (s : Store) (c : CacheClient) (now : Nat) :
    ListOutcome :=
  if !dbUp then ⟨.dbUnavailable, c, false⟩
  else
    match c with
    | .noClient => ⟨.okUsers s.users, .noClient, true⟩
    | _ => ⟨.okUsers s.users, .up (some ⟨s.users, now + 30⟩), true⟩

/-- `list_users` (GET /users): `if redis_client:` probe the cache first;
a present, unexpired `all_users` value is returned without touching the
store. The probe happens outside any try/except, so a raising client
crashes the request with a 500. Otherwise fall through to the store. -/
def list_users (dbUp : Bool) (s : Store) (c : CacheClient) (now : Nat) :
    ListOutcome :=
  match c with
  | .down => ⟨.serverError, .down, false⟩
  | .up (some entry) =>
      if now < entry.expiry then ⟨.okUsers entry.value, .up (some entry), false⟩
      else listFromStore dbUp s (.up (some entry)) now
  | .up none => listFromStore dbUp s (.up none) now
  | .noClient => listFromStore dbUp s .noClient now

/-- `get_user` (GET /users/id): select by primary key; 404 when absent. -/
def get_user (dbUp : Bool) (s : Store) (uid : Nat) : HResult :=
  if !dbUp then .dbUnavailable
  else
    match s.users.find? (fun u => u.id == uid) with
    | some u => .okUser u
    | none => .notFound

/-- `update_user` (PUT /users/id): 400 if both fields are falsy (checked
before any connection), then run the UPDATE; 404 on zero rows, 409 on
IntegrityError, else commit and invalidate the cache. -/
def update_user (dbUp : Bool) (s : Store) (c : CacheClient) (uid : Nat)
    (username email : Option String) : MutOutcome :=
  if !truthy username && !truthy email then
    ⟨.badRequest "No data provided for update", s, c, false⟩
  else if !dbUp then ⟨.dbUnavailable, s, c, false⟩
  else
    match s.updateUser uid username email with
    | .notFound => ⟨.notFound, s, c, true⟩
    | .integrity => ⟨.conflict, s, c, true⟩
    | .ok s' => invalidateAndRespond (.okUpdated uid) s' c

/-- `delete_user` (DELETE /users/id): run the DELETE; 404 on zero rows,
else commit and invalidate the cache. -/
def delete_user (dbUp : Bool) (s : Store) (c : CacheClient) (uid : Nat) :
    MutOutcome :=
  if !dbUp then ⟨.dbUnavailable, s, c, false⟩
  else if !(s.users.any (fun u => u.id == uid)) then ⟨.notFound, s, c, true⟩
  else invalidateAndRespond (.okDeleted uid)
    ⟨s.users.filter (fun u => u.id != uid), s.nextId⟩ c

/-- A mutating request, for properties quantified over all three
mutation handlers. -/
inductive Mutation where
  | create (username email : Option String)
  | update (uid : Nat) (username email : Option String)
  | delete (uid : Nat)
deriving DecidableEq, Repr

def runMutation (dbUp : Bool) (s : Store) (c : CacheClient) : Mutation → MutOutcome
  | .create u e => create_user dbUp s c u e
  | .update uid u e => update_user dbUp s c uid u e
  | .delete uid => delete_user dbUp s c uid

/-- Whether the cache currently holds an `all_users` snapshot. -/
def hasSnapshot : CacheClient → Bool
  | .up (some _) => true
  | _ => false

/-- What an unexpired cached snapshot would serve at time `now`. -/
def freshSnapshot : Option CacheEntry → Nat → Option (List User)
  | some e, now => if now < e.expiry then some e.value else none
  | none, _ => none

/-! ### Helper lemmas -/

/-- `find?` skips a prefix on which the predicate is everywhere false. -/
theorem find?_append_none {α : Type} (p : α → Bool) (l₁ l₂ : List α)
    (h : ∀ x ∈ l₁, p x = false) :
    List.find? p (l₁ ++ l₂) = List.find? p l₂ := by
  induction l₁ with
  | nil => rfl
  | cons a l ih =>
      rw [List.cons_append, List.find?_cons_of_neg _ (by simp [h a (List.mem_cons_self a l)])]
      exact ih (fun x hx => h x (List.mem_cons_of_mem a hx))

/-- `getD` commutes with `map` at indices inside the list. -/
theorem getD_map_inside (f : User → User) :
    ∀ (l : List User) (i : Nat), i < l.length → ∀ d d' : User,
      (l.map f).getD i d = f (l.getD i d')
  | a :: l, 0, _, _, _ => rfl
  | a :: l, i + 1, h, d, d' =>
      getD_map_inside f l i (Nat.lt_of_succ_lt_succ (by simpa using h)) d d'

/-! ### Claims -/

/-- C1, counterexample: a successful create (201) commits the new user
to the store but leaves the previously cached snapshot in place, so a
list call within the prior TTL window still serves the stale (empty)
snapshot and does not reflect the create. -/
theorem create_leaves_snapshot :
    (create_user true ⟨[], 1⟩ (.up (some ⟨[], 100⟩)) (some "alice") (some "a@x.com")).response.status = 201
    ∧ hasSnapshot (create_user true ⟨[], 1⟩ (.up (some ⟨[], 100⟩)) (some "alice") (some "a@x.com")).cache' = true
    ∧ (list_users true
        (create_user true ⟨[], 1⟩ (.up (some ⟨[], 100⟩)) (some "alice") (some "a@x.com")).store'
        (create_user true ⟨[], 1⟩ (.up (some ⟨[], 100⟩)) (some "alice") (some "a@x.com")).cache'
        50).response
      = .okUsers [] := by decide

/-- C1, amended: every mutation handler that returns 200 (update or
delete succeeded) has deleted the cached snapshot before returning,
while a handler returning 201 (create succeeded) leaves the cache
exactly as it found it. -/
theorem mutation_invalidation (dbUp : Bool) (s : Store) (c : CacheClient) (m : Mutation) :
    ((runMutation dbUp s c m).response.status = 200 →
      hasSnapshot (runMutation dbUp s c m).cache' = false)
    ∧ ((runMutation dbUp s c m).response.status = 201 →
      (runMutation dbUp s c m).cache' = c) := by
  cases m <;>
    simp only [runMutation, create_user, update_user, delete_user, invalidateAndRespond] <;>
    (repeat' split) <;>
    simp [HResult.status, hasSnapshot]

/-- C1, amended, witness at a successful delete with a populated cache. -/
theorem mutation_invalidation_witness :
    hasSnapshot (runMutation true ⟨[⟨1, "alice", "a@x.com"⟩], 2⟩
      (.up (some ⟨[⟨1, "alice", "a@x.com"⟩], 99⟩)) (.delete 1)).cache' = false :=
  (mutation_invalidation true ⟨[⟨1, "alice", "a@x.com"⟩], 2⟩
    (.up (some ⟨[⟨1, "alice", "a@x.com"⟩], 99⟩)) (.delete 1)).1 (by decide)

/-- C2: with a working cache client and a reachable store, a list
request served by an unexpired snapshot returns exactly the snapshot
value, issues no store query and leaves the cache unchanged; with no
unexpired snapshot it returns the store rows and writes them into the
cache with a 30-unit time-to-live. -/
theorem list_cache_policy (s : Store) (e? : Option CacheEntry) (now : Nat) :
    (∀ v, freshSnapshot e? now = some v →
      list_users true s (.up e?) now = ⟨.okUsers v, .up e?, false⟩)
    ∧ (freshSnapshot e? now = none →
      list_users true s (.up e?) now
        = ⟨.okUsers s.users, .up (some ⟨s.users, now + 30⟩), true⟩) := by
  constructor
  · intro v hv
    match e? with
    | none => simp [freshSnapshot] at hv
    | some e =>
      by_cases hlt : now < e.expiry
      · simp only [freshSnapshot, if_pos hlt, Option.some.injEq] at hv
        subst hv
        simp [list_users, hlt]
      · simp [freshSnapshot, hlt] at hv
  · intro h
    match e? with
    | none => simp [list_users, listFromStore]
    | some e =>
      by_cases hlt : now < e.expiry
      · simp [freshSnapshot, hlt] at h
      · simp [list_users, listFromStore, hlt]

/-- C2, witness: a hit within the TTL and a miss on an empty cache. -/
theorem list_cache_policy_witness :
    list_users true ⟨[⟨1, "alice", "a@x.com"⟩], 2⟩
        (.up (some ⟨[⟨1, "alice", "a@x.com"⟩], 40⟩)) 20
      = ⟨.okUsers [⟨1, "alice", "a@x.com"⟩], .up (some ⟨[⟨1, "alice", "a@x.com"⟩], 40⟩), false⟩
    ∧ list_users true ⟨[⟨1, "alice", "a@x.com"⟩], 2⟩ (.up none) 20
      = ⟨.okUsers [⟨1, "alice", "a@x.com"⟩], .up (some ⟨[⟨1, "alice", "a@x.com"⟩], 50⟩), true⟩ :=
  ⟨(list_cache_policy ⟨[⟨1, "alice", "a@x.com"⟩], 2⟩
      (some ⟨[⟨1, "alice", "a@x.com"⟩], 40⟩) 20).1 _ (by decide),
   (list_cache_policy ⟨[⟨1, "alice", "a@x.com"⟩], 2⟩ none 20).2 (by decide)⟩

/-- C5: deleting a nonexistent id returns 404 and leaves the store, the
cache (no invalidation) and everything else unchanged. -/
theorem delete_missing_404_no_invalidate (s : Store) (c : CacheClient) (uid : Nat)
    (h : s.users.any (fun u => u.id == uid) = false) :
    delete_user true s c uid = ⟨.notFound, s, c, true⟩
    ∧ HResult.notFound.status = 404 := by
  refine ⟨?_, rfl⟩
  simp [delete_user, h]

/-- C5, witness: deleting id 2 when only id 1 exists, cache populated. -/
theorem delete_missing_404_witness :
    delete_user true ⟨[⟨1, "alice", "a@x.com"⟩], 2⟩ (.up (some ⟨[], 99⟩)) 2
      = ⟨.notFound, ⟨[⟨1, "alice", "a@x.com"⟩], 2⟩, .up (some ⟨[], 99⟩), true⟩ :=
  (delete_missing_404_no_invalidate ⟨[⟨1, "alice", "a@x.com"⟩], 2⟩
    (.up (some ⟨[], 99⟩)) 2 (by decide)).1

/-- C6, counterexample: with a cache client that raises at call time the
list handler does not fall through to the store — the `redis_client.get`
call sits outside any try/except, so the request fails with a 500 and no
store query is issued. -/
theorem list_cache_down_500 :
    (list_users true ⟨[⟨1, "alice", "a@x.com"⟩], 2⟩ .down 0).response.status = 500
    ∧ (list_users true ⟨[⟨1, "alice", "a@x.com"⟩], 2⟩ .down 0).storeQueried = false := by
  decide

/-- C6, amended: when the cache client is absent (startup ping failed)
every list request skips the cache and returns the store rows; when the
client exists but raises at read time, the request fails with 500. -/
theorem list_cache_unavailable (s : Store) (now : Nat) :
    list_users true s .noClient now = ⟨.okUsers s.users, .noClient, true⟩
    ∧ (list_users true s .down now).response.status = 500 :=
  ⟨rfl, rfl⟩

/-- C7: an update providing neither a truthy username nor a truthy email
is rejected with 400 before any database work — the store is untouched,
no SQL is issued, and this holds even if the database is unreachable. -/
theorem update_no_fields_400 (dbUp : Bool) (s : Store) (c : CacheClient) (uid : Nat)
    (u e : Option String) (hu : truthy u = false) (he : truthy e = false) :
    update_user dbUp s c uid u e
      = ⟨.badRequest "No data provided for update", s, c, false⟩ := by
  simp [update_user, hu, he]

/-- C7, witness: empty body fields with the database down still give 400. -/
theorem update_no_fields_400_witness :
    update_user false ⟨[⟨1, "alice", "a@x.com"⟩], 2⟩ .noClient 1 none (some "")
      = ⟨.badRequest "No data provided for update", ⟨[⟨1, "alice", "a@x.com"⟩], 2⟩, .noClient, false⟩ :=
  update_no_fields_400 false ⟨[⟨1, "alice", "a@x.com"⟩], 2⟩ .noClient 1 none (some "")
    (by decide) (by decide)

/-- C3, counterexample: with a cache client that raises at invalidation
time, an update that has already committed to the store returns 500, not
success — the committed write survives (rollback after commit is a
no-op) but the caller is told the mutation failed. -/
theorem update_cache_down_500 :
    (update_user true ⟨[⟨1, "alice", "a@x.com"⟩], 2⟩ .down 1
      (some "bob") (some "b@y.com")).response.status = 500
    ∧ (update_user true ⟨[⟨1, "alice", "a@x.com"⟩], 2⟩ .down 1
      (some "bob") (some "b@y.com")).store'
      = ⟨[⟨1, "bob", "b@y.com"⟩], 2⟩ := by decide

/-- C3, amended: when the cache client is absent (startup ping failed)
every mutation behaves exactly as with a reachable empty cache — same
response, same store state — so the skipped invalidation never fails the
mutation; when the client exists but raises, the committed store write
is preserved, but any mutation that would have returned 200 returns 500
instead. -/
theorem invalidation_failure_behavior (s : Store) (m : Mutation) :
    ((runMutation true s .noClient m).response = (runMutation true s (.up none) m).response
      ∧ (runMutation true s .noClient m).store' = (runMutation true s (.up none) m).store')
    ∧ ((runMutation true s .down m).store' = (runMutation true s (.up none) m).store'
      ∧ ((runMutation true s (.up none) m).response.status = 200 →
          (runMutation true s .down m).response.status = 500)) := by
  cases m <;>
    simp only [runMutation, create_user, update_user, delete_user, invalidateAndRespond] <;>
    (repeat' split) <;>
    simp [HResult.status]

/-- C3, amended, witness at a committed delete with a raising client. -/
theorem invalidation_failure_witness :
    (runMutation true ⟨[⟨1, "alice", "a@x.com"⟩], 2⟩ .down (.delete 1)).response.status = 500 :=
  (invalidation_failure_behavior ⟨[⟨1, "alice", "a@x.com"⟩], 2⟩ (.delete 1)).2.2 (by decide)

/-- C4: a create whose username or email is already taken by an existing
row fails with 409 and leaves the store exactly as it was (the insert is
rolled back), and the cache is untouched. -/
theorem create_duplicate_conflict (s : Store) (c : CacheClient) (u e : String)
    (hu : u ≠ "") (he : e ≠ "")
    (hdup : (usernameTaken s u || emailTaken s e) = true) :
    create_user true s c (some u) (some e) = ⟨.conflict, s, c, true⟩
    ∧ HResult.conflict.status = 409 := by
  refine ⟨?_, rfl⟩
  have h1 : truthy (some u) = true := by
    simp [truthy, beq_eq_false_iff_ne.mpr hu]
  have h2 : truthy (some e) = true := by
    simp [truthy, beq_eq_false_iff_ne.mpr he]
  simp [create_user, h1, h2, Store.insertUser, hdup]

/-- C4, witness: re-creating username alice with a fresh email. -/
theorem create_duplicate_witness :
    create_user true ⟨[⟨1, "alice", "a@x.com"⟩], 2⟩ .noClient (some "alice") (some "b@y.com")
      = ⟨.conflict, ⟨[⟨1, "alice", "a@x.com"⟩], 2⟩, .noClient, true⟩ :=
  (create_duplicate_conflict ⟨[⟨1, "alice", "a@x.com"⟩], 2⟩ .noClient "alice" "b@y.com"
    (by decide) (by decide) (by decide)).1

/-- C8: a create with truthy fields, no duplicate, and a store whose
rows all have ids distinct from the next serial id, succeeds with 201
and the fresh id, and a get on that id then returns exactly the created
username and email. -/
theorem create_then_get (s : Store) (c : CacheClient) (u e : String)
    (hu : u ≠ "") (he : e ≠ "")
    (hnu : usernameTaken s u = false) (hne : emailTaken s e = false)
    (hfresh : ∀ x ∈ s.users, x.id ≠ s.nextId) :
    (create_user true s c (some u) (some e)).response = .created s.nextId u e
    ∧ (HResult.created s.nextId u e).status = 201
    ∧ get_user true (create_user true s c (some u) (some e)).store' s.nextId
      = .okUser ⟨s.nextId, u, e⟩ := by
  have h1 : truthy (some u) = true := by
    simp [truthy, beq_eq_false_iff_ne.mpr hu]
  have h2 : truthy (some e) = true := by
    simp [truthy, beq_eq_false_iff_ne.mpr he]
  have hc : create_user true s c (some u) (some e)
      = ⟨.created s.nextId u e, ⟨s.users ++ [⟨s.nextId, u, e⟩], s.nextId + 1⟩, c, true⟩ := by
    simp [create_user, h1, h2, Store.insertUser, hnu, hne]
  have hfind : List.find? (fun x => x.id == s.nextId) (s.users ++ [⟨s.nextId, u, e⟩])
      = some ⟨s.nextId, u, e⟩ := by
    rw [find?_append_none]
    · simp
    · intro x hx
      exact beq_eq_false_iff_ne.mpr (hfresh x hx)
  refine ⟨by rw [hc], rfl, ?_⟩
  rw [hc]
  simp [get_user, hfind]

/-- C8, witness: creating bob next to alice and reading it back. -/
theorem create_then_get_witness :
    (create_user true ⟨[⟨1, "alice", "a@x.com"⟩], 2⟩ .noClient
      (some "bob") (some "b@y.com")).response = .created 2 "bob" "b@y.com"
    ∧ get_user true (create_user true ⟨[⟨1, "alice", "a@x.com"⟩], 2⟩ .noClient
      (some "bob") (some "b@y.com")).store' 2 = .okUser ⟨2, "bob", "b@y.com"⟩ :=
  ⟨(create_then_get ⟨[⟨1, "alice", "a@x.com"⟩], 2⟩ .noClient "bob" "b@y.com"
      (by decide) (by decide) (by decide) (by decide) (by decide)).1,
   (create_then_get ⟨[⟨1, "alice", "a@x.com"⟩], 2⟩ .noClient "bob" "b@y.com"
      (by decide) (by decide) (by decide) (by decide) (by decide)).2.2⟩

/-- C9: a successful store update rewrites only the matching row's
username and email: the row count is preserved, every row keeps its id
(ids are immutable), and every row whose id differs from the updated id
is left entirely unchanged. -/
theorem update_frame (s : Store) (uid : Nat) (u e : Option String) (s' : Store)
    (h : Store.updateUser s uid u e = .ok s') :
    s'.users.length = s.users.length
    ∧ ∀ i, i < s.users.length →
        (s'.users.getD i ⟨0, "", ""⟩).id = (s.users.getD i ⟨0, "", ""⟩).id
        ∧ ((s.users.getD i ⟨0, "", ""⟩).id ≠ uid →
            s'.users.getD i ⟨0, "", ""⟩ = s.users.getD i ⟨0, "", ""⟩) := by
  unfold Store.updateUser at h
  split at h
  · exact absurd h (by simp)
  split at h
  · exact absurd h (by simp)
  split at h
  · exact absurd h (by simp)
  · injection h with h
    subst h
    constructor
    · simp
    · intro i hi
      rw [getD_map_inside _ _ _ hi _ ⟨0, "", ""⟩]
      generalize s.users.getD i ⟨0, "", ""⟩ = x
      constructor
      · by_cases hid : (x.id == uid) = true
        · rw [if_pos hid]
        · rw [if_neg hid]
      · intro hne
        have hb : (x.id == uid) = false := beq_eq_false_iff_ne.mpr hne
        rw [if_neg (by simp [hb])]

/-- C9, witness: updating id 1 leaves the row with id 2 untouched. -/
theorem update_frame_witness :
    Store.updateUser ⟨[⟨1, "alice", "a@x.com"⟩, ⟨2, "bob", "b@y.com"⟩], 3⟩ 1
        (some "carol") (some "c@z.com")
      = .ok ⟨[⟨1, "carol", "c@z.com"⟩, ⟨2, "bob", "b@y.com"⟩], 3⟩
    ∧ (⟨[⟨1, "carol", "c@z.com"⟩, ⟨2, "bob", "b@y.com"⟩], 3⟩ : Store).users.getD 1 ⟨0, "", ""⟩
      = (⟨[⟨1, "alice", "a@x.com"⟩, ⟨2, "bob", "b@y.com"⟩], 3⟩ : Store).users.getD 1 ⟨0, "", ""⟩ :=
  ⟨by decide,
   ((update_frame ⟨[⟨1, "alice", "a@x.com"⟩, ⟨2, "bob", "b@y.com"⟩], 3⟩ 1
       (some "carol") (some "c@z.com") ⟨[⟨1, "carol", "c@z.com"⟩, ⟨2, "bob", "b@y.com"⟩], 3⟩
       (by decide)).2 1 (by decide)).2 (by decide)⟩

/-- C10: an update supplying exactly one field (the other absent, so it
is bound as NULL) against an existing row writes both columns, trips the
NOT NULL constraint, and is answered with the 409 duplicate response
while the store is left unchanged — in both the username-only and the
email-only direction. -/
theorem update_single_field_conflict (s : Store) (c : CacheClient) (uid : Nat)
    (v : String) (hv : v ≠ "")
    (hex : s.users.any (fun u => u.id == uid) = true) :
    update_user true s c uid (some v) none = ⟨.conflict, s, c, true⟩
    ∧ update_user true s c uid none (some v) = ⟨.conflict, s, c, true⟩ := by
  have ht : truthy (some v) = true := by
    simp [truthy, beq_eq_false_iff_ne.mpr hv]
  have h1 : Store.updateUser s uid (some v) none = .integrity := by
    simp [Store.updateUser, hex]
  have h2 : Store.updateUser s uid none (some v) = .integrity := by
    simp [Store.updateUser, hex]
  constructor <;> simp [update_user, ht, truthy, h1, h2, hv]

/-- C10, witness: username-only update of an existing row gives 409. -/
theorem update_single_field_witness :
    update_user true ⟨[⟨1, "alice", "a@x.com"⟩], 2⟩ .noClient 1 (some "bob") none
      = ⟨.conflict, ⟨[⟨1, "alice", "a@x.com"⟩], 2⟩, .noClient, true⟩ :=
  (update_single_field_conflict ⟨[⟨1, "alice", "a@x.com"⟩], 2⟩ .noClient 1 "bob"
    (by decide) (by decide)).1
